import Mathlib

/-!
Verification development for the HireOps recruiting-pipeline backend.

The Python backend (FastAPI + SQLAlchemy) is shallowly embedded: each
endpoint body becomes a pure Lean function over an explicit store state,
numeric scores (Python floats) are modelled as exact rationals, nullable
columns become `Option`, and SQLAlchemy row mutation becomes functional
record update.  Database `Event` rows are modelled by their `app_id` and
`event_type` (payloads are display-only JSON blobs).  Outbound SMTP and
LLM calls are external side effects: the interview-evaluator oracle is a
function parameter, SMTP success is a boolean parameter where the control
flow depends on it, and display-only strings (ai_next_action,
final_summary, email bodies) are omitted from the state.
-/

namespace HireOps

/-- Python `round(x, k)` uses round-half-to-even on the scaled value.
Floats are modelled as exact rationals. -/
def roundHalfEven (x : ℚ) : ℤ :=
  let f : ℤ := ⌊x⌋
  let frac : ℚ := x - f
  if frac < 1/2 then f
  else if 1/2 < frac then f + 1
  else if f % 2 = 0 then f else f + 1

/-- Python `round(x, 1)`. -/
def round1 (x : ℚ) : ℚ := (roundHalfEven (x * 10) : ℚ) / 10

/-- Python `round(x, 3)`. -/
def round3 (x : ℚ) : ℚ := (roundHalfEven (x * 1000) : ℚ) / 1000

/-- Python `x or 0` on a nullable numeric column. -/
def optQ (x : Option ℚ) : ℚ := x.getD 0

/-- Python truthiness of a nullable string column (`None` and `""` are falsy). -/
def pyTruthyStr : Option String → Bool
  | none => false
  | some s => s != ""

/-- `events` table row, keyed by the application and the event type
(the JSON payload is display-only and not modelled). -/
structure Event where
  app_id : Nat
  event_type : String
  deriving DecidableEq, Repr

/-- `jobs` table row: the fields the screening router reads. -/
structure Job where
  id : Nat
  resume_threshold_min : Option ℚ
  interview_threshold_min : Option ℚ
  final_threshold_reject : Option ℚ
  deriving DecidableEq, Repr

/-- The interview-evaluator payload persisted in
`Application.interview_score_json`: the fields the router later reads
back (`score`, `decision`); the prose fields are display-only. -/
structure EvalStored where
  score : ℚ
  decision : String
  deriving DecidableEq, Repr

/-- `applications` table row: the fields the screening router reads or
writes (display-only text columns `ai_next_action`, `final_summary`,
`ai_snippets` are omitted). -/
structure Application where
  id : Nat
  resume_score : Option ℚ
  interview_score : Option ℚ
  final_score : Option ℚ
  stage : String
  recommendation : Option String
  screening_transcript : Option String
  screening_status : Option String
  interview_link_status : Option String
  interview_score_json : Option EvalStored
  scheduled_interview_slot : Option String
  email_draft_sent : Nat
  interview_face_tracking_json : Option (ℚ × ℚ × Nat)
  deriving DecidableEq, Repr

/-- One face-tracking snapshot (`FaceTrackingDataRequest`). -/
structure Snapshot where
  face_present : Bool
  attention_score : ℚ
  timestamp : ℤ
  face_count : Nat
  deriving DecidableEq, Repr

/-- The per-link telemetry blob stored in `InterviewLink.face_tracking_json`.
The initial Python dict has no `face_present_percentage` key; it is set on
the first submission, so the pre-first-submission default here is 0. -/
structure Tracking where
  snapshots : List Snapshot
  avg_attention_score : ℚ
  face_present_count : Nat
  total_snapshots : Nat
  face_present_percentage : ℚ
  deriving DecidableEq, Repr

/-- `interview_links` table row: the fields the screening router reads or
writes.  Timestamps are abstract integer instants; the `*_at` audit
timestamps other than `expires_at` are omitted. -/
structure Link where
  token : String
  app_id : Nat
  status : String
  elevenlabs_conversation_id : Option String
  expires_at : ℤ
  face_tracking : Option Tracking
  deriving DecidableEq, Repr

/-- The slice of the store touched by the single-application screening
endpoints: the application row, its (current) interview link, and the
append-only event log. -/
structure Store1 where
  app : Application
  link : Link
  events : List Event
  deriving DecidableEq, Repr

/-- `_apply_threshold_decision` (screening.py lines 32-136).
Returns the updated application, the decision string, and the events
appended.  The best-effort rejection-email side effect and the
display-only `ai_next_action` strings are external/omitted; the
`auto_rejection_email_sent` event is logged only on SMTP success, which
is outside the model, so it is not included. -/
def applyThresholdDecision (app : Application) (job : Job) :
    Application × String × List Event :=
  let resume_score := optQ app.resume_score
  let interview_score := optQ app.interview_score
  let final_score := optQ app.final_score
  let resume_min := job.resume_threshold_min.getD 80
  let interview_min := job.interview_threshold_min.getD 75
  let reject_below := job.final_threshold_reject.getD 50
  let resume_pass := resume_min ≤ resume_score
  let interview_pass := interview_min ≤ interview_score
  let above_reject := reject_below ≤ final_score
  if resume_pass ∧ interview_pass then
    ({ app with recommendation := some "advance", stage := "shortlisted" },
     "advance", [⟨app.id, "threshold_auto_advance"⟩])
  else if ¬ above_reject then
    ({ app with recommendation := some "reject", stage := "rejected" },
     "reject", [])
  else
    ({ app with recommendation := some "hold" },
     "hold", [⟨app.id, "threshold_hold"⟩])

/-- The interview-evaluator oracle (`evaluate_interview`), abstracted as a
deterministic function of the transcript text; the other
`InterviewEvaluatorInput` fields (job title/description, skills, resume
score/summary) are fixed per store and do not vary within any claim.
`none` models the call raising an exception. -/
def Evaluator : Type := String → Option EvalStored

/-- `calculate_final_score` endpoint (screening.py lines 427-508).
The LLM `final_summary` generation (with its template fallback) is
display-only and omitted.  Returns the updated application, the threshold
decision (`none` when the application's job row is absent, in which case
`threshold_result` stays `{}`), and the events appended. -/
def calculate_final_score (app : Application) (job : Option Job) :
    Application × Option String × List Event :=
  let resume_score := optQ app.resume_score
  let interview_score := optQ app.interview_score
  let final_score := round1 (resume_score * 0.4 + interview_score * 0.6)
  let app1 := { app with final_score := some final_score }
  let ev := [Event.mk app.id "final_score_calculated"]
  match job with
  | some j =>
      let r := applyThresholdDecision app1 j
      (r.1, some r.2.1, ev ++ r.2.2)
  | none => (app1, none, ev)

/-- `submit_interview_transcript` endpoint (screening.py lines 710-851).
`advEmailOk` is the SMTP outcome of the best-effort advance-email;
`none` models the 404 on an unknown token.  The second component of the
result is the endpoint's `evaluation` field: `none` when the evaluator
raised (the failure is logged and the response is still a success), else
`(interview score, threshold decision, final score)`.  The application's
job row is passed in (the endpoint loads it inside the try block). -/
def submit_interview_transcript (ev : Evaluator) (advEmailOk : Bool)
    (token : String) (transcript : String) (convId : Option String)
    (job : Job) (st : Store1) : Option (Store1 × Option (ℚ × String × ℚ)) :=
  if st.link.token != token then none
  else
    let app1 := { st.app with
                  screening_transcript := some transcript
                  stage := "screened"
                  screening_status := some "completed" }
    let newConv := match convId with
                   | some c => some c
                   | none => st.link.elevenlabs_conversation_id
    let link1 := { st.link with
                   elevenlabs_conversation_id := newConv
                   status := "interview_completed" }
    let ev1 := st.events ++ [Event.mk app1.id "interview_transcript_received"]
    match ev transcript with
    | some r =>
        let resume_score := optQ app1.resume_score
        let final_score := round1 (resume_score * 0.4 + r.score * 0.6)
        let app2 := { app1 with
                      interview_score := some r.score
                      interview_score_json := some r
                      final_score := some final_score }
        let t := applyThresholdDecision app2 job
        let sendDraft := t.2.1 = "advance" ∧ advEmailOk
        let app4 := if sendDraft then { t.1 with email_draft_sent := 1 } else t.1
        let ev2 := ev1 ++ t.2.2 ++
          (if sendDraft then [Event.mk app1.id "auto_email_draft_sent"] else []) ++
          [Event.mk app1.id "interview_auto_evaluated"]
        some (Store1.mk app4 link1 ev2, some (r.score, t.2.1, final_score))
    | none =>
        some (Store1.mk app1 link1
                (ev1 ++ [Event.mk app1.id "interview_auto_evaluate_failed"]),
              none)

/-- `evaluate_screening` endpoint (screening.py lines 858-982).
`slotOf` abstracts the JSON-trailer parse extracting
`availability.candidate_preferred_slot` from the transcript (`none` for
absent/unparseable/empty).  `none` models the 4xx/5xx exits (unknown app
is out of scope here; missing transcript is the 400; an evaluator
exception propagates as a 500).  Returns the new store and
`(interview score, decision, final score)`. -/
def evaluate_screening (ev : Evaluator) (slotOf : String → Option String)
    (job : Job) (st : Store1) : Option (Store1 × ℚ × String × ℚ) :=
  if pyTruthyStr st.app.screening_transcript = false then none
  else
    let transcript := st.app.screening_transcript.getD ""
    match ev transcript with
    | none => none
    | some r =>
        let candidate_preferred_slot := slotOf transcript
        let resume_score := optQ st.app.resume_score
        let final_score := round1 (resume_score * 0.4 + r.score * 0.6)
        let app2 := { st.app with
                      interview_score := some r.score
                      interview_score_json := some r
                      final_score := some final_score }
        let t := applyThresholdDecision app2 job
        let app4 :=
          if t.2.1 = "advance" ∧ candidate_preferred_slot.isSome then
            { t.1 with scheduled_interview_slot := candidate_preferred_slot }
          else
            { t.1 with scheduled_interview_slot := none }
        some ({ st with
                app := app4
                events := st.events ++ t.2.2 ++ [Event.mk st.app.id "evaluated"] },
              r.score, t.2.1, final_score)

/-- One ElevenLabs transcript turn (`data.transcript[i]`). -/
structure Turn where
  role : String
  message : String
  time_in_call_secs : ℤ
  deriving DecidableEq, Repr

/-- Python `str.title()` for the single-word roles appearing in webhook
turns: capitalize the first letter of each space-separated word and
lowercase the rest. -/
def pyTitle (s : String) : String :=
  String.intercalate " " ((s.splitOn " ").map (fun w =>
    match w.data with
    | [] => ""
    | c :: cs => String.mk (c.toUpper :: cs.map Char.toLower)))

/-- Webhook transcript formatting loop:
`f"[{time_secs:.0f}s] {role}: {message}\n"` accumulated over the turns. -/
def formatTranscript : List Turn → String
  | [] => ""
  | t :: ts =>
      "[" ++ toString t.time_in_call_secs ++ "s] " ++ pyTitle t.role ++ ": "
        ++ t.message ++ "\n" ++ formatTranscript ts

/-- A `post_call_transcription` webhook payload (`data` object). -/
structure WebhookPayload where
  conversation_id : String
  transcript : List Turn
  deriving DecidableEq, Repr

/-- `elevenlabs_webhook` endpoint, `post_call_transcription` branch
(screening.py lines 1091-1187), for a store with the webhook's secret
unset (signature verification disabled).  The boolean result records
whether the Interview Evaluator was invoked by this delivery. -/
def elevenlabs_webhook (ev : Evaluator) (p : WebhookPayload) (st : Store1) :
    Store1 × Bool :=
  let transcript_text := formatTranscript p.transcript
  if st.link.elevenlabs_conversation_id = some p.conversation_id then
    if pyTruthyStr st.app.screening_transcript then (st, false)
    else
      let app1 := { st.app with
                    screening_transcript := some transcript_text
                    stage := "screened"
                    screening_status := some "completed" }
      let ev1 := st.events ++ [Event.mk app1.id "webhook_transcript_received"]
      if app1.interview_score_json = none then
        match ev transcript_text with
        | some r =>
            let app2 := { app1 with
                          interview_score := some r.score
                          interview_score_json := some r
                          recommendation := some r.decision }
            ({ st with
               app := app2
               events := ev1 ++ [Event.mk app1.id "webhook_auto_evaluated"] }, true)
        | none =>
            ({ st with
               app := app1
               events := ev1 ++ [Event.mk app1.id "webhook_auto_evaluate_failed"] }, true)
      else
        ({ st with app := app1, events := ev1 }, false)
  else (st, false)

/-- The public link-validation response (`InterviewLinkPublicResponse`):
the fields the claims inspect (candidate/job/company display fields and
screening questions are omitted). -/
structure PublicResponse where
  status : String
  is_valid : Bool
  error : Option String
  deriving DecidableEq, Repr

/-- `get_interview_link_public` endpoint (screening.py lines 543-612).
`now` is the abstract current instant (`datetime.utcnow()`). -/
def get_interview_link_public (now : ℤ) (token : String) (st : Store1) :
    Store1 × PublicResponse :=
  if st.link.token != token then
    (st, PublicResponse.mk "invalid" false (some "Interview link not found."))
  else if st.link.expires_at < now then
    let st1 :=
      if st.link.status ≠ "expired" ∧ st.link.status ≠ "interview_completed" then
        { st with link := { st.link with status := "expired" } }
      else st
    (st1, PublicResponse.mk "expired" false
      (some "This interview link has expired. Please contact the recruiter for a new link."))
  else if st.link.status = "interview_completed" then
    (st, PublicResponse.mk "interview_completed" false
      (some "This interview has already been completed. Thank you!"))
  else
    let st1 :=
      if st.link.status = "generated" ∨ st.link.status = "sent" then
        { st with
          link := { st.link with status := "opened" }
          app := { st.app with interview_link_status := some "opened" }
          events := st.events ++ [Event.mk st.link.app_id "interview_link_opened"] }
      else st
    (st1, PublicResponse.mk st1.link.status true none)

/-- `update_interview_status` endpoint (screening.py lines 615-653).
`none` models the 404 on an unknown token; otherwise the requested
transition is applied with no check of the link's current status or
expiry, and the returned string is the response's `status` field. -/
def update_interview_status (token : String) (reqStatus : String)
    (reqConv : Option String) (st : Store1) : Option (Store1 × String) :=
  if st.link.token != token then none
  else if reqStatus = "interview_started" then
    let newConv := match reqConv with
                   | some c => some c
                   | none => st.link.elevenlabs_conversation_id
    let link1 := { st.link with
                   status := "interview_started"
                   elevenlabs_conversation_id := newConv }
    let app1 := { st.app with
                  interview_link_status := some "interview_started"
                  screening_status := some "in_progress" }
    some (Store1.mk app1 link1 (st.events ++ [Event.mk st.link.app_id "interview_started"]),
          "interview_started")
  else if reqStatus = "interview_completed" then
    let link1 := { st.link with status := "interview_completed" }
    let app1 := { st.app with interview_link_status := some "interview_completed" }
    some (Store1.mk app1 link1 (st.events ++ [Event.mk st.link.app_id "interview_completed"]),
          "interview_completed")
  else
    some (st, st.link.status)

/-- The empty tracking dict created on first submission (the Python
initial dict has no `face_present_percentage` key; 0 stands for absent,
and the field is written before it is ever read). -/
def emptyTracking : Tracking := Tracking.mk [] 0 0 0 0

/-- The telemetry update of `submit_face_tracking` (screening.py lines
663-693): append the snapshot, bump the counters, recompute the rounded
aggregates over the current buffer, then trim the buffer to the last 100
snapshots. -/
def trackStep (tracking : Tracking) (req : Snapshot) : Tracking :=
  let snaps1 := tracking.snapshots ++ [req]
  let total := tracking.total_snapshots + 1
  let fpc := tracking.face_present_count + (if req.face_present then 1 else 0)
  let avg := round3 (((snaps1.map (fun s => s.attention_score)).sum) / (total : ℚ))
  let fpp := round1 ((fpc : ℚ) / (total : ℚ) * 100)
  let snaps2 := if snaps1.length > 100 then snaps1.drop (snaps1.length - 100) else snaps1
  Tracking.mk snaps2 avg fpc total fpp

/-- `submit_face_tracking` endpoint (screening.py lines 656-707).
`none` models the 404 on an unknown token; the `Nat` result is the
response's `total_snapshots`. -/
def submit_face_tracking (token : String) (req : Snapshot) (st : Store1) :
    Option (Store1 × Nat) :=
  if st.link.token != token then none
  else
    let tracking1 := trackStep (st.link.face_tracking.getD emptyTracking) req
    let link1 := { st.link with face_tracking := some tracking1 }
    let app1 := { st.app with
                  interview_face_tracking_json :=
                    some (tracking1.avg_attention_score,
                      tracking1.face_present_percentage, tracking1.total_snapshots) }
    some (Store1.mk app1 link1 st.events, tracking1.total_snapshots)

/-- Does `needle` occur at the start of `hay` (character lists)? -/
def segStarts : List Char → List Char → Bool
  | [], _ => true
  | _ :: _, [] => false
  | c :: cs, d :: ds => c == d && segStarts cs ds

/-- Does `needle` occur anywhere in `hay` (character lists)?
Python's `needle in hay` on strings. -/
def hasSeg (needle : List Char) : List Char → Bool
  | [] => segStarts needle []
  | d :: ds => segStarts needle (d :: ds) || hasSeg needle ds

/-- Python `needle in hay` for strings. -/
def strContains (hay needle : String) : Bool := hasSeg needle.data hay.data

/-- Python `s.lower()`, as a character list. -/
def lowerChars (s : String) : List Char := s.data.map Char.toLower

/-- Python `hay.endswith(pat)` on character lists: the reversed pattern
starts the reversed string. -/
def charsEndWith (hay pat : List Char) : Bool := segStarts pat.reverse hay.reverse

/-- `classify_email` input (`EmailClassifierInput`). -/
structure EmailClassifierInput where
  subject : String
  from_name : String
  from_email : String
  attachment_names : List String
  body_text : String
  deriving DecidableEq, Repr

/-- `classify_email` output (`EmailClassifierOutput`). -/
structure EmailClassifierOutput where
  category : String
  confidence : ℚ
  reasoning : String
  suggested_action : String
  detected_name : String
  detected_role : String
  deriving DecidableEq, Repr

/-- The resume-shaped attachment extensions of the classifier fallback. -/
def resumeExtensions : List String := [".pdf", ".docx", ".doc"]

/-- The application keywords of the classifier fallback. -/
def applicationKeywords : List String :=
  ["apply", "application", "resume", "cv", "position", "role", "job",
   "opportunity", "hiring"]

/-- `has_resume` in the fallback: some attachment name, lowercased,
ends with a resume-shaped extension. -/
def hasResumeAttachment (names : List String) : Bool :=
  names.any (fun name =>
    resumeExtensions.any (fun ext => charsEndWith (lowerChars name) ext.data))

/-- `keyword_hits` in the fallback: the number of keywords occurring as
substrings of the lowercased `subject ++ " " ++ body_text`. -/
def keywordHits (subject body : String) : Nat :=
  let text := lowerChars (subject ++ " " ++ body)
  (applicationKeywords.filter (fun kw => hasSeg kw.data text)).length

/-- The fallback's detected name:
`from_name or from_email.split('@')[0].replace('.', ' ').title()`. -/
def fallbackDetectedName (from_name from_email : String) : String :=
  if from_name != "" then from_name
  else pyTitle (String.map (fun c => if c = '.' then ' ' else c)
    ((from_email.splitOn "@").headD ""))

/-- The deterministic fallback branch of `classify_email`
(email_classifier.py lines 97-129), reached in mock mode or when the
remote agent call fails. -/
def classify_email_fallback (inp : EmailClassifierInput) : EmailClassifierOutput :=
  let has_resume := hasResumeAttachment inp.attachment_names
  let hits := keywordHits inp.subject inp.body_text
  if has_resume ∨ hits ≥ 2 then
    { category := "candidate_application"
      confidence := if has_resume then 0.92 else 0.78
      reasoning :=
        if has_resume then "Email contains resume attachment and application keywords"
        else "Email body contains multiple application-related keywords"
      suggested_action := "Extract resume and create candidate profile"
      detected_name := fallbackDetectedName inp.from_name inp.from_email
      detected_role := "Software Engineer" }
  else
    { category := "general"
      confidence := 0.85
      reasoning := "No resume attachment or application keywords detected"
      suggested_action := "Archive or ignore"
      detected_name := ""
      detected_role := "" }

namespace LinkOps

/-!
The link-creating operations, modelled as a transition system over the
whole store's interview-link table, to settle the single-active-link
invariant.  Dashboard `generate_interview_link` (screening.py lines
143-189) operates on an existing application; the ingestion pipeline's
auto-advance (workflow_service.py `run_email_workflow`, lines 200-265)
creates a fresh application row (it is only reached when no application
exists for the candidate/job pair, and a freshly inserted row has a new
primary key) and attaches one link, flipped from `generated` to `sent`
when the interview-link email succeeds.
-/

/-- One `interview_links` row, reduced to the fields the invariant is
about. -/
structure LinkRec where
  app_id : Nat
  status : String
  deriving DecidableEq, Repr

/-- The link-table slice of the store: existing application ids and all
link rows. -/
structure DashState where
  apps : List Nat
  links : List LinkRec
  deriving DecidableEq, Repr

/-- The non-terminal link statuses of the invariant. -/
def activeStatuses : List String :=
  ["generated", "sent", "opened", "interview_started"]

/-- The statuses expired by `generate_interview_link`'s bulk update. -/
def expirableStatuses : List String := ["generated", "sent", "opened"]

/-- The bulk `UPDATE ... SET status='expired'` row function of
`generate_interview_link`. -/
def expireActive (a : Nat) (l : LinkRec) : LinkRec :=
  if l.app_id = a ∧ l.status ∈ expirableStatuses then { l with status := "expired" }
  else l

/-- The two link-creating operations. -/
inductive LinkOp where
  | generateLink (appId : Nat)
  | autoAdvance (emailOk : Bool)
  deriving DecidableEq, Repr

/-- The primary key of a freshly inserted application row: larger than
every existing id. -/
def freshAppId (st : DashState) : Nat := (st.apps.foldr max 0) + 1

/-- Apply one link-creating operation.  `generateLink` on an unknown
application is the 404 (no state change). -/
def applyLinkOp : LinkOp → DashState → DashState
  | .generateLink a, st =>
      if a ∈ st.apps then
        { st with links := (st.links.map (expireActive a)) ++ [LinkRec.mk a "generated"] }
      else st
  | .autoAdvance emailOk, st =>
      let newId := freshAppId st
      DashState.mk (newId :: st.apps)
        (st.links ++ [LinkRec.mk newId (if emailOk then "sent" else "generated")])

/-- The empty store. -/
def initState : DashState := DashState.mk [] []

/-- Run a sequence of link-creating operations from the empty store. -/
def runLinkOps (ops : List LinkOp) : DashState :=
  ops.foldl (fun st op => applyLinkOp op st) initState

/-- Is this link row an active (non-terminal) link of application `a`? -/
def isActiveFor (a : Nat) (l : LinkRec) : Bool :=
  l.app_id == a && activeStatuses.contains l.status

/-- Number of links of application `a` in a non-terminal status. -/
def activeLinkCount (st : DashState) (a : Nat) : Nat :=
  (st.links.filter (isActiveFor a)).length

/-- The inductive invariant: every link status is one the two operations
can produce, each application has at most one active link, and links
only point at existing applications. -/
def Inv (st : DashState) : Prop :=
  (∀ l ∈ st.links, l.status ∈ ["generated", "sent", "expired"]) ∧
  (∀ a : Nat, activeLinkCount st a ≤ 1) ∧
  (∀ l ∈ st.links, l.app_id ∈ st.apps)

end LinkOps

/-! Concrete sample rows used by witnesses and counterexamples. -/

/-- A job with no stored thresholds (all defaults apply). -/
def jobDefaults : Job := Job.mk 1 none none none

/-- An application that passes both default thresholds. -/
def appPassing : Application :=
  Application.mk 1 (some 90) (some 80) (some 84) "screened" none none none none
    none none 0 none

/-- An application with no scores at all. -/
def appNoScores : Application :=
  Application.mk 1 none none none "screened" none none none none none none 0 none

/-- An application awaiting its webhook transcript: resume scored, no
transcript, no interview evaluation yet. -/
def appAwaiting : Application :=
  Application.mk 1 (some 80) none none "screening_scheduled" none none none none
    none none 0 none

/-- A link in an interview in progress, tied to conversation `conv1`. -/
def linkStarted : Link := Link.mk "tok" 1 "interview_started" (some "conv1") 1000 none

/-- A fresh generated link. -/
def linkGenerated : Link := Link.mk "tok" 1 "generated" none 1000 none

/-- An expired-status link whose expiry instant is in the past. -/
def linkExpired : Link := Link.mk "tok" 1 "expired" none 10 none

/-- Store awaiting the webhook transcript. -/
def storeAwaiting : Store1 := Store1.mk appAwaiting linkStarted []

/-- An evaluator oracle that always succeeds with score 90, advance. -/
def evalAdvance : Evaluator := fun _ => some (EvalStored.mk 90 "advance")

/-- An evaluator oracle that always raises. -/
def evalFails : Evaluator := fun _ => none

/-- A `post_call_transcription` payload for `conv1` with no turns: its
formatted transcript text is the empty string. -/
def payloadEmpty : WebhookPayload := WebhookPayload.mk "conv1" []

/-- A `post_call_transcription` payload for `conv1` with one turn. -/
def payloadOneTurn : WebhookPayload :=
  WebhookPayload.mk "conv1" [Turn.mk "agent" "Hello" 0]

/-- Run a whole telemetry sequence through `submit_face_tracking`. -/
def runTelemetry (token : String) (reqs : List Snapshot) (st : Store1) :
    Option Store1 :=
  reqs.foldlM (fun s r => (submit_face_tracking token r s).map Prod.fst) st

/-- Telemetry sequence: one attentive snapshot followed by 101 fully
inattentive ones (102 submissions in total, one past the buffer bound). -/
def telemetryRun : List Snapshot :=
  Snapshot.mk true 1 0 1 :: List.replicate 101 (Snapshot.mk true 0 0 1)

/-- Store for the telemetry run: generated link, no telemetry yet. -/
def storeTelemetry : Store1 := Store1.mk appAwaiting linkGenerated []

/-- The last `n` elements of a list (Python `xs[-n:]`). -/
def lastN {α : Type} (n : Nat) (xs : List α) : List α := xs.drop (xs.length - n)

/-- What the stored telemetry blob actually holds after the submissions
in `history`: counters over the whole history, the buffer trimmed to the
last 100 snapshots, and rounded aggregates whose attention sum ranges
only over the snapshots buffered at computation time (the last
`min (total, 101)` submissions). -/
def TrackInv (history : List Snapshot) (t : Tracking) : Prop :=
  t.total_snapshots = history.length ∧
  t.face_present_count = (history.filter (fun s => s.face_present)).length ∧
  t.snapshots = lastN 100 history ∧
  (history = [] ∨
    (t.avg_attention_score =
        round3 ((((lastN 101 history).map (fun s => s.attention_score)).sum)
          / (history.length : ℚ)) ∧
     t.face_present_percentage =
        round1 (((history.filter (fun s => s.face_present)).length : ℚ)
          / (history.length : ℚ) * 100)))

/-- A single half-attention snapshot. -/
def telemetryOne : List Snapshot := [Snapshot.mk true (1/2) 0 1]

/-- A sent link whose expiry instant (10) is already in the past. -/
def storeExpiredPast : Store1 :=
  Store1.mk appAwaiting (Link.mk "tok" 1 "sent" none 10 none) []

/-- A completed link that has not yet passed its expiry instant. -/
def storeCompleted : Store1 :=
  Store1.mk appAwaiting (Link.mk "tok" 1 "interview_completed" none 1000 none) []

/-- A store whose link is already expired (status and instant). -/
def storeExpiredStatus : Store1 := Store1.mk appAwaiting linkExpired []

/-- An application carrying a stored transcript, not yet evaluated. -/
def appWithTranscript : Application :=
  Application.mk 1 (some 80) none none "screened" none (some "T")
    (some "completed") none none none 0 none

/-- Store for manual re-evaluation: transcript present. -/
def storeWithTranscript : Store1 := Store1.mk appWithTranscript linkStarted []

/-- A dashboard state with one application owning one sent link. -/
def dashOneSent : LinkOps.DashState :=
  LinkOps.DashState.mk [1] [LinkOps.LinkRec.mk 1 "sent"]

/-- An email with a resume-shaped attachment. -/
def emailWithResume : EmailClassifierInput :=
  EmailClassifierInput.mk "Application for Data Analyst" "Jane Doe"
    "jane@example.com" ["Resume.PDF"] "Please find my resume attached."

/-- An email with no attachment but several application keywords. -/
def emailKeywordsOnly : EmailClassifierInput :=
  EmailClassifierInput.mk "Interested in the open role" "" "sam@example.com" []
    "I would like to apply for this position."

/-- An email with neither attachment nor keywords. -/
def emailGeneral : EmailClassifierInput :=
  EmailClassifierInput.mk "Lunch" "" "pat@example.com" [] "See you at noon!"

/-! Helper lemmas. -/

theorem applyThresholdDecision_final_score (app : Application) (job : Job) :
    (applyThresholdDecision app job).1.final_score = app.final_score := by
  simp only [applyThresholdDecision]
  split_ifs <;> simp

theorem applyThresholdDecision_resume_score (app : Application) (job : Job) :
    (applyThresholdDecision app job).1.resume_score = app.resume_score := by
  simp only [applyThresholdDecision]
  split_ifs <;> simp

theorem applyThresholdDecision_interview_score (app : Application) (job : Job) :
    (applyThresholdDecision app job).1.interview_score = app.interview_score := by
  simp only [applyThresholdDecision]
  split_ifs <;> simp

theorem applyThresholdDecision_transcript (app : Application) (job : Job) :
    (applyThresholdDecision app job).1.screening_transcript
      = app.screening_transcript := by
  simp only [applyThresholdDecision]
  split_ifs <;> simp

/-- C1: for every application and job, the threshold decision follows
the advance / reject / hold table with the job's thresholds (defaults
80 / 75 / 50), setting the stage to `shortlisted` on advance, `rejected`
on reject, and leaving it unchanged on hold.  Missing scores enter the
comparison as 0 (the code's `app.x or 0`). -/
theorem threshold_decision_table (app : Application) (job : Job) :
    ((job.resume_threshold_min.getD 80 ≤ optQ app.resume_score ∧
      job.interview_threshold_min.getD 75 ≤ optQ app.interview_score) →
      (applyThresholdDecision app job).2.1 = "advance" ∧
      (applyThresholdDecision app job).1.stage = "shortlisted") ∧
    (¬(job.resume_threshold_min.getD 80 ≤ optQ app.resume_score ∧
       job.interview_threshold_min.getD 75 ≤ optQ app.interview_score) →
      optQ app.final_score < job.final_threshold_reject.getD 50 →
      (applyThresholdDecision app job).2.1 = "reject" ∧
      (applyThresholdDecision app job).1.stage = "rejected") ∧
    (¬(job.resume_threshold_min.getD 80 ≤ optQ app.resume_score ∧
       job.interview_threshold_min.getD 75 ≤ optQ app.interview_score) →
      ¬(optQ app.final_score < job.final_threshold_reject.getD 50) →
      (applyThresholdDecision app job).2.1 = "hold" ∧
      (applyThresholdDecision app job).1.stage = app.stage) := by
  unfold applyThresholdDecision
  refine ⟨fun h => ?_, fun h hf => ?_, fun h hf => ?_⟩
  · simp [h]
  · rw [if_neg h, if_pos (by simpa using hf)]
    simp
  · rw [if_neg h, if_neg (by simpa using hf)]
    simp

/-- Witness for C1: a passing application under default thresholds is
advanced and shortlisted. -/
theorem threshold_decision_table_witness :
    (jobDefaults.resume_threshold_min.getD 80 ≤ optQ appPassing.resume_score ∧
     jobDefaults.interview_threshold_min.getD 75 ≤ optQ appPassing.interview_score) ∧
    ((applyThresholdDecision appPassing jobDefaults).2.1 = "advance" ∧
     (applyThresholdDecision appPassing jobDefaults).1.stage = "shortlisted") :=
  ⟨by decide, (threshold_decision_table appPassing jobDefaults).1 (by decide)⟩

/-- C6 counterexample: an application with both scores missing, under a
job with default thresholds, still gets a threshold decision from
`calculate_final_score` — the verdict is `reject` and the stage is set
to `rejected`, so threshold logic is not skipped. -/
theorem calculate_final_score_missing_scores_rejects :
    appNoScores.resume_score = none ∧
    appNoScores.interview_score = none ∧
    (calculate_final_score appNoScores (some jobDefaults)).2.1 = some "reject" ∧
    (calculate_final_score appNoScores (some jobDefaults)).1.stage = "rejected" ∧
    appNoScores.stage ≠ "rejected" := by with_unfolding_all decide

/-- C6 amended: missing scores are coerced to 0 and threshold logic is
applied whenever the application's job row exists; it is skipped (and
the stage left unchanged) only when the job row is absent. -/
theorem calculate_final_score_threshold_always_applied
    (app : Application) (job : Job) :
    (calculate_final_score app (some job)).2.1 =
      some (applyThresholdDecision
        { app with final_score := some (round1 (optQ app.resume_score * 0.4
            + optQ app.interview_score * 0.6)) } job).2.1 ∧
    (calculate_final_score app none).2.1 = none ∧
    (calculate_final_score app none).1.stage = app.stage :=
  ⟨rfl, rfl, rfl⟩

/-- C2 counterexample: the webhook's auto-evaluation sets
`interview_score` on an application that already has `resume_score`, but
never writes `final_score`, so a persisted application exists with both
scores present and `final_score` not equal to (indeed absent instead of)
`round(0.4·resume + 0.6·interview, 1)`. -/
theorem webhook_breaks_final_score_invariant :
    (elevenlabs_webhook evalAdvance payloadOneTurn storeAwaiting).1.app.resume_score
        = some 80 ∧
    (elevenlabs_webhook evalAdvance payloadOneTurn storeAwaiting).1.app.interview_score
        = some 90 ∧
    (elevenlabs_webhook evalAdvance payloadOneTurn storeAwaiting).1.app.final_score
        = none ∧
    (elevenlabs_webhook evalAdvance payloadOneTurn storeAwaiting).1.app.final_score
        ≠ some (round1 ((80 : ℚ) * 0.4 + 90 * 0.6)) := by
  with_unfolding_all decide

/-- C2 amended: each of the three operations that do set `final_score`
(calculate-final-score, transcript submission with auto-evaluation, and
manual evaluate) computes it as `round(0.4·resume_score +
0.6·interview_score, 1)` with a missing resume score coerced to 0; but
the all-states invariant fails because the webhook auto-evaluation path
sets `interview_score` without setting `final_score`. -/
theorem final_score_formula
    (app : Application) (job : Job) (ev : Evaluator) (advOk : Bool)
    (tok tr : String) (conv : Option String) (slotOf : String → Option String)
    (r : EvalStored) (st su : Store1) :
    ((calculate_final_score app (some job)).1.final_score =
        some (round1 (optQ app.resume_score * 0.4 + optQ app.interview_score * 0.6)) ∧
     (calculate_final_score app none).1.final_score =
        some (round1 (optQ app.resume_score * 0.4 + optQ app.interview_score * 0.6))) ∧
    (st.link.token = tok → ev tr = some r →
      (submit_interview_transcript ev advOk tok tr conv job st).map
          (fun p => p.1.app.final_score)
        = some (some (round1 (optQ st.app.resume_score * 0.4 + r.score * 0.6)))) ∧
    (pyTruthyStr su.app.screening_transcript = true →
      ev (su.app.screening_transcript.getD "") = some r →
      (evaluate_screening ev slotOf job su).map (fun p => p.1.app.final_score)
        = some (some (round1 (optQ su.app.resume_score * 0.4 + r.score * 0.6)))) := by
  refine ⟨⟨?_, rfl⟩, fun hTok hEv => ?_, fun hT hEv => ?_⟩
  · show (applyThresholdDecision _ job).1.final_score = _
    rw [applyThresholdDecision_final_score]
  · simp only [submit_interview_transcript, hTok, bne_self_eq_false, Bool.false_eq_true,
      if_false, hEv]
    split_ifs <;> simp [applyThresholdDecision_final_score]
  · simp only [evaluate_screening, hT, Bool.true_eq_false, if_false, hEv]
    split_ifs <;> simp [applyThresholdDecision_final_score]

/-- Witness for C2: concrete runs of the three operations produce
`final_score = round(0.4·80 + 0.6·90, 1) = 86`. -/
theorem final_score_formula_witness :
    (storeAwaiting.link.token = "tok" ∧
     evalAdvance "Hi" = some (EvalStored.mk 90 "advance") ∧
     pyTruthyStr storeWithTranscript.app.screening_transcript = true ∧
     evalAdvance (storeWithTranscript.app.screening_transcript.getD "")
        = some (EvalStored.mk 90 "advance")) ∧
    ((submit_interview_transcript evalAdvance true "tok" "Hi" none jobDefaults
        storeAwaiting).map (fun p => p.1.app.final_score)
      = some (some (round1 (optQ storeAwaiting.app.resume_score * 0.4
          + (EvalStored.mk 90 "advance").score * 0.6)))) ∧
    ((evaluate_screening evalAdvance (fun _ => none) jobDefaults
        storeWithTranscript).map (fun p => p.1.app.final_score)
      = some (some (round1 (optQ storeWithTranscript.app.resume_score * 0.4
          + (EvalStored.mk 90 "advance").score * 0.6)))) :=
  ⟨⟨rfl, rfl, by decide, rfl⟩,
   (final_score_formula storeAwaiting.app jobDefaults evalAdvance true "tok" "Hi"
      none (fun _ => none) (EvalStored.mk 90 "advance") storeAwaiting
      storeWithTranscript).2.1 rfl rfl,
   (final_score_formula storeAwaiting.app jobDefaults evalAdvance true "tok" "Hi"
      none (fun _ => none) (EvalStored.mk 90 "advance") storeAwaiting
      storeWithTranscript).2.2 (by decide) rfl⟩

theorem formatTranscript_cons_ne_empty (t : Turn) (ts : List Turn) :
    formatTranscript (t :: ts) ≠ "" := by
  intro hEq
  have h := congrArg String.data hEq
  simp only [formatTranscript, String.data_append] at h
  exact absurd h (by simp)

/-- C4 amended: re-delivering the same `post_call_transcription` payload
is a no-op — same store, evaluator not invoked — provided the payload
has at least one transcript turn (so the stored transcript text is a
non-empty, hence truthy, string).  A zero-turn payload stores `""`,
which the `not app.screening_transcript` guard treats as absent, so the
claim fails for it (see the counterexample). -/
theorem elevenlabs_webhook_noop (ev : Evaluator) (p : WebhookPayload)
    (st : Store1) (h : pyTruthyStr st.app.screening_transcript = true) :
    elevenlabs_webhook ev p st = (st, false) := by
  by_cases hc : st.link.elevenlabs_conversation_id = some p.conversation_id <;>
    simp [elevenlabs_webhook, hc, h]

theorem webhook_replay_idempotent (ev : Evaluator) (p : WebhookPayload)
    (st : Store1) (h : formatTranscript p.transcript ≠ "") :
    elevenlabs_webhook ev p (elevenlabs_webhook ev p st).1
      = ((elevenlabs_webhook ev p st).1, false) := by
  by_cases hc : st.link.elevenlabs_conversation_id = some p.conversation_id
  · by_cases ht : pyTruthyStr st.app.screening_transcript = true
    · have h1 : elevenlabs_webhook ev p st = (st, false) :=
        elevenlabs_webhook_noop ev p st ht
      rw [h1]
      exact h1
    · have hset : (elevenlabs_webhook ev p st).1.app.screening_transcript
          = some (formatTranscript p.transcript) := by
        by_cases hj : st.app.interview_score_json = none
        · cases hev : ev (formatTranscript p.transcript) <;>
            simp [elevenlabs_webhook, hc, ht, hj, hev]
        · simp [elevenlabs_webhook, hc, ht, hj]
      have htr : pyTruthyStr (elevenlabs_webhook ev p st).1.app.screening_transcript
          = true := by
        rw [hset]
        simpa [pyTruthyStr, bne_iff_ne] using h
      exact elevenlabs_webhook_noop ev p _ htr
  · have h1 : elevenlabs_webhook ev p st = (st, false) := by
      simp [elevenlabs_webhook, hc]
    rw [h1]
    exact h1

/-- Witness for C4: replaying a one-turn payload leaves the store
unchanged and does not invoke the evaluator again. -/
theorem webhook_replay_idempotent_witness :
    formatTranscript payloadOneTurn.transcript ≠ "" ∧
    elevenlabs_webhook evalAdvance payloadOneTurn
        (elevenlabs_webhook evalAdvance payloadOneTurn storeAwaiting).1
      = ((elevenlabs_webhook evalAdvance payloadOneTurn storeAwaiting).1, false) :=
  ⟨formatTranscript_cons_ne_empty _ _,
   webhook_replay_idempotent evalAdvance payloadOneTurn storeAwaiting
     (formatTranscript_cons_ne_empty _ _)⟩

/-- C4 counterexample: a `post_call_transcription` payload with an empty
turn list formats to the empty string; the second delivery re-enters the
storage branch and appends a second transcript-received event, so the
event set changes. -/
theorem webhook_replay_duplicates_event :
    ((elevenlabs_webhook evalAdvance payloadEmpty
        (elevenlabs_webhook evalAdvance payloadEmpty storeAwaiting).1).1.events
      ≠ (elevenlabs_webhook evalAdvance payloadEmpty storeAwaiting).1.events) ∧
    (((elevenlabs_webhook evalAdvance payloadEmpty
        (elevenlabs_webhook evalAdvance payloadEmpty storeAwaiting).1).1.events.filter
        (fun e => e.event_type == "webhook_transcript_received")).length = 2) := by
  with_unfolding_all decide

/-- C5: on a known token whose `expires_at` is in the past, the public
validation endpoint answers `is_valid = false` with status `expired` and
stores status `expired` unless the link is already `expired` or
`interview_completed`; an unknown token answers status `invalid` with no
state change; a completed (and unexpired) link answers status
`interview_completed` with no state change. -/
theorem link_validation_paths (now : ℤ) (token : String) (st : Store1) :
    (st.link.token = token → st.link.expires_at < now →
      (get_interview_link_public now token st).2.is_valid = false ∧
      (get_interview_link_public now token st).2.status = "expired" ∧
      (get_interview_link_public now token st).1.link.status =
        (if st.link.status = "expired" ∨ st.link.status = "interview_completed"
         then st.link.status else "expired")) ∧
    (st.link.token ≠ token →
      (get_interview_link_public now token st).2.is_valid = false ∧
      (get_interview_link_public now token st).2.status = "invalid" ∧
      (get_interview_link_public now token st).1 = st) ∧
    (st.link.token = token → ¬(st.link.expires_at < now) →
      st.link.status = "interview_completed" →
      (get_interview_link_public now token st).2.is_valid = false ∧
      (get_interview_link_public now token st).2.status = "interview_completed" ∧
      (get_interview_link_public now token st).1 = st) := by
  refine ⟨fun hTok hExp => ?_, fun hTok => ?_, fun hTok hExp hStat => ?_⟩
  · subst hTok
    simp only [get_interview_link_public, bne_self_eq_false, Bool.false_eq_true,
      if_false, if_pos hExp]
    refine ⟨by trivial, by trivial, ?_⟩
    by_cases h1 : st.link.status ≠ "expired" ∧ st.link.status ≠ "interview_completed"
    · rw [if_pos h1, if_neg (by tauto)]
    · rw [if_neg h1, if_pos (by tauto)]
  · have hb : (st.link.token != token) = true := by simpa [bne_iff_ne] using hTok
    simp [get_interview_link_public, hb]
  · subst hTok
    simp [get_interview_link_public, hExp, hStat]

/-- Witness for C5: a sent link past its expiry turns `expired`; an
unknown token yields `invalid`; a completed link yields
`interview_completed`; each with `is_valid = false`. -/
theorem link_validation_paths_witness :
    (storeExpiredPast.link.token = "tok" ∧ storeExpiredPast.link.expires_at < 100 ∧
      ((get_interview_link_public 100 "tok" storeExpiredPast).2.is_valid = false ∧
       (get_interview_link_public 100 "tok" storeExpiredPast).2.status = "expired" ∧
       (get_interview_link_public 100 "tok" storeExpiredPast).1.link.status =
         (if storeExpiredPast.link.status = "expired" ∨
             storeExpiredPast.link.status = "interview_completed"
          then storeExpiredPast.link.status else "expired"))) ∧
    (storeCompleted.link.token ≠ "bad" ∧
      ((get_interview_link_public 100 "bad" storeCompleted).2.is_valid = false ∧
       (get_interview_link_public 100 "bad" storeCompleted).2.status = "invalid" ∧
       (get_interview_link_public 100 "bad" storeCompleted).1 = storeCompleted)) ∧
    (storeCompleted.link.token = "tok" ∧ ¬(storeCompleted.link.expires_at < 100) ∧
      storeCompleted.link.status = "interview_completed" ∧
      ((get_interview_link_public 100 "tok" storeCompleted).2.is_valid = false ∧
       (get_interview_link_public 100 "tok" storeCompleted).2.status
          = "interview_completed" ∧
       (get_interview_link_public 100 "tok" storeCompleted).1 = storeCompleted)) :=
  ⟨⟨rfl, by decide,
    (link_validation_paths 100 "tok" storeExpiredPast).1 rfl (by decide)⟩,
   ⟨by decide, (link_validation_paths 100 "bad" storeCompleted).2.1 (by decide)⟩,
   ⟨rfl, by decide, rfl,
    (link_validation_paths 100 "tok" storeCompleted).2.2 rfl (by decide) rfl⟩⟩

/-- C9: when the evaluator raises, the transcript, the link status
`interview_completed`, the stage `screened`, and the transcript-received
event are still persisted, the failure is recorded as an event, and the
endpoint returns its success shape with `evaluation = none`. -/
theorem transcript_persisted_on_evaluator_failure
    (ev : Evaluator) (advOk : Bool) (tok tr : String) (conv : Option String)
    (job : Job) (st : Store1)
    (hTok : st.link.token = tok) (hFail : ev tr = none) :
    ∃ st1 : Store1,
      submit_interview_transcript ev advOk tok tr conv job st = some (st1, none) ∧
      st1.app.screening_transcript = some tr ∧
      st1.app.stage = "screened" ∧
      st1.app.screening_status = some "completed" ∧
      st1.link.status = "interview_completed" ∧
      Event.mk st.app.id "interview_transcript_received" ∈ st1.events ∧
      Event.mk st.app.id "interview_auto_evaluate_failed" ∈ st1.events := by
  subst hTok
  have heq : submit_interview_transcript ev advOk st.link.token tr conv job st
      = some (Store1.mk
          { st.app with
            screening_transcript := some tr
            stage := "screened"
            screening_status := some "completed" }
          { st.link with
            elevenlabs_conversation_id :=
              match conv with
              | some c => some c
              | none => st.link.elevenlabs_conversation_id
            status := "interview_completed" }
          (st.events ++ [Event.mk st.app.id "interview_transcript_received"]
            ++ [Event.mk st.app.id "interview_auto_evaluate_failed"]), none) := by
    simp only [submit_interview_transcript, bne_self_eq_false, Bool.false_eq_true,
      if_false, hFail]
  exact ⟨_, heq, rfl, rfl, rfl, rfl, by simp, by simp⟩

/-- Witness for C9: a failing evaluator still leaves the transcript and
completion state stored, with the failure event logged. -/
theorem transcript_persisted_on_evaluator_failure_witness :
    storeAwaiting.link.token = "tok" ∧ evalFails "Hi" = none ∧
    (∃ st1 : Store1,
      submit_interview_transcript evalFails true "tok" "Hi" none jobDefaults
          storeAwaiting = some (st1, none) ∧
      st1.app.screening_transcript = some "Hi" ∧
      st1.app.stage = "screened" ∧
      st1.app.screening_status = some "completed" ∧
      st1.link.status = "interview_completed" ∧
      Event.mk storeAwaiting.app.id "interview_transcript_received" ∈ st1.events ∧
      Event.mk storeAwaiting.app.id "interview_auto_evaluate_failed" ∈ st1.events) :=
  ⟨rfl, rfl,
   transcript_persisted_on_evaluator_failure evalFails true "tok" "Hi" none
     jobDefaults storeAwaiting rfl rfl⟩

/-- C10: the public status-update endpoint applies the requested
transition unconditionally on any known token — no check of the link's
current status or `expires_at` — setting the link status and the
application's `interview_link_status` mirror (and, for
`interview_started`, `screening_status = in_progress`). -/
theorem status_update_unconditional (tok : String) (conv : Option String)
    (st : Store1) (hTok : st.link.token = tok) :
    (∃ st1 : Store1,
       update_interview_status tok "interview_started" conv st
           = some (st1, "interview_started") ∧
       st1.link.status = "interview_started" ∧
       st1.app.interview_link_status = some "interview_started" ∧
       st1.app.screening_status = some "in_progress") ∧
    (∃ st2 : Store1,
       update_interview_status tok "interview_completed" conv st
           = some (st2, "interview_completed") ∧
       st2.link.status = "interview_completed" ∧
       st2.app.interview_link_status = some "interview_completed") := by
  subst hTok
  constructor
  · have heq : update_interview_status st.link.token "interview_started" conv st
        = some (Store1.mk
            { st.app with
              interview_link_status := some "interview_started"
              screening_status := some "in_progress" }
            { st.link with
              status := "interview_started"
              elevenlabs_conversation_id :=
                match conv with
                | some c => some c
                | none => st.link.elevenlabs_conversation_id }
            (st.events ++ [Event.mk st.link.app_id "interview_started"]),
          "interview_started") := by
      simp [update_interview_status]
    exact ⟨_, heq, rfl, rfl, rfl⟩
  · have heq2 : update_interview_status st.link.token "interview_completed" conv st
        = some (Store1.mk
            { st.app with interview_link_status := some "interview_completed" }
            { st.link with status := "interview_completed" }
            (st.events ++ [Event.mk st.link.app_id "interview_completed"]),
          "interview_completed") := by
      simp [update_interview_status]
    exact ⟨_, heq2, rfl, rfl⟩

/-- Witness for C10: an already-expired link (both by status and by
instant) is still moved back to `interview_started`. -/
theorem status_update_unconditional_witness :
    (storeExpiredStatus.link.status = "expired" ∧
     storeExpiredStatus.link.expires_at = 10 ∧
     storeExpiredStatus.link.token = "tok") ∧
    ((∃ st1 : Store1,
       update_interview_status "tok" "interview_started" none storeExpiredStatus
           = some (st1, "interview_started") ∧
       st1.link.status = "interview_started" ∧
       st1.app.interview_link_status = some "interview_started" ∧
       st1.app.screening_status = some "in_progress") ∧
     (∃ st2 : Store1,
       update_interview_status "tok" "interview_completed" none storeExpiredStatus
           = some (st2, "interview_completed") ∧
       st2.link.status = "interview_completed" ∧
       st2.app.interview_link_status = some "interview_completed")) :=
  ⟨⟨rfl, rfl, rfl⟩,
   status_update_unconditional "tok" none storeExpiredStatus rfl⟩

/-- C8: the classifier's deterministic fallback returns
`candidate_application` at confidence 0.92 when some attachment name
ends (case-insensitively) in `.pdf`, `.docx`, or `.doc`; at 0.78 when
there is no such attachment but at least 2 of the application keywords
occur in subject+body; and `general` at 0.85 otherwise. -/
theorem classifier_fallback_cases (inp : EmailClassifierInput) :
    (hasResumeAttachment inp.attachment_names = true →
      (classify_email_fallback inp).category = "candidate_application" ∧
      (classify_email_fallback inp).confidence = 0.92) ∧
    (hasResumeAttachment inp.attachment_names = false →
      2 ≤ keywordHits inp.subject inp.body_text →
      (classify_email_fallback inp).category = "candidate_application" ∧
      (classify_email_fallback inp).confidence = 0.78) ∧
    (hasResumeAttachment inp.attachment_names = false →
      keywordHits inp.subject inp.body_text < 2 →
      (classify_email_fallback inp).category = "general" ∧
      (classify_email_fallback inp).confidence = 0.85) := by
  refine ⟨fun h => ?_, fun h hk => ?_, fun h hk => ?_⟩
  · simp [classify_email_fallback, h]
  · simp [classify_email_fallback, h, hk]
  · have hk2 : ¬ 2 ≤ keywordHits inp.subject inp.body_text := by omega
    simp [classify_email_fallback, h, hk2]

/-- Witness for C8: one email per fallback branch. -/
theorem classifier_fallback_cases_witness :
    (hasResumeAttachment emailWithResume.attachment_names = true ∧
     ((classify_email_fallback emailWithResume).category = "candidate_application" ∧
      (classify_email_fallback emailWithResume).confidence = 0.92)) ∧
    (hasResumeAttachment emailKeywordsOnly.attachment_names = false ∧
     2 ≤ keywordHits emailKeywordsOnly.subject emailKeywordsOnly.body_text ∧
     ((classify_email_fallback emailKeywordsOnly).category = "candidate_application" ∧
      (classify_email_fallback emailKeywordsOnly).confidence = 0.78)) ∧
    (hasResumeAttachment emailGeneral.attachment_names = false ∧
     keywordHits emailGeneral.subject emailGeneral.body_text < 2 ∧
     ((classify_email_fallback emailGeneral).category = "general" ∧
      (classify_email_fallback emailGeneral).confidence = 0.85)) :=
  ⟨⟨by decide, (classifier_fallback_cases emailWithResume).1 (by decide)⟩,
   ⟨by decide, by decide,
    (classifier_fallback_cases emailKeywordsOnly).2.1 (by decide) (by decide)⟩,
   ⟨by decide, by decide,
    (classifier_fallback_cases emailGeneral).2.2 (by decide) (by decide)⟩⟩

namespace LinkOps

theorem mem_le_foldr_max (xs : List Nat) (a : Nat) (h : a ∈ xs) :
    a ≤ xs.foldr max 0 := by
  induction xs with
  | nil => cases h
  | cons x xs ih =>
      rcases List.mem_cons.mp h with rfl | h
      · exact le_max_left _ _
      · exact le_trans (ih h) (le_max_right _ _)

theorem freshAppId_not_mem (st : DashState) : freshAppId st ∉ st.apps := by
  intro h
  have := mem_le_foldr_max st.apps _ h
  simp only [freshAppId] at this
  omega

theorem expireActive_app_id (a : Nat) (l : LinkRec) :
    (expireActive a l).app_id = l.app_id := by
  simp only [expireActive]
  split_ifs <;> rfl

theorem expireActive_of_ne (a : Nat) (l : LinkRec) (h : l.app_id ≠ a) :
    expireActive a l = l := by
  simp [expireActive, h]

theorem filter_expire_other {a b : Nat} (hne : b ≠ a) (ls : List LinkRec) :
    (ls.map (expireActive a)).filter (isActiveFor b) = ls.filter (isActiveFor b) := by
  induction ls with
  | nil => rfl
  | cons l ls ih =>
      by_cases happ : l.app_id = a
      · have h1 : isActiveFor b (expireActive a l) = false := by
          simp [isActiveFor, expireActive_app_id, happ, Ne.symm hne]
        have h2 : isActiveFor b l = false := by
          simp [isActiveFor, happ, Ne.symm hne]
        simp [List.filter_cons, h1, h2, ih]
      · rw [List.map_cons, expireActive_of_ne a l happ]
        simp [List.filter_cons, ih]

theorem filter_expire_self (a : Nat) (ls : List LinkRec)
    (hst : ∀ l ∈ ls, l.status ∈ ["generated", "sent", "expired"]) :
    (ls.map (expireActive a)).filter (isActiveFor a) = [] := by
  induction ls with
  | nil => rfl
  | cons l ls ih =>
      have hl := hst l (by simp)
      have hrest : ∀ x ∈ ls, x.status ∈ ["generated", "sent", "expired"] :=
        fun x hx => hst x (by simp [hx])
      have h1 : isActiveFor a (expireActive a l) = false := by
        by_cases happ : l.app_id = a
        · simp only [List.mem_cons, List.not_mem_nil, or_false] at hl
          rcases hl with h | h | h <;>
            simp [expireActive, isActiveFor, happ, h, expirableStatuses, activeStatuses]
        · simp [isActiveFor, expireActive_app_id, happ]
      simp [List.filter_cons, h1, ih hrest]

theorem inv_applyLinkOp (op : LinkOp) (st : DashState) (h : Inv st) :
    Inv (applyLinkOp op st) := by
  obtain ⟨h1, h2, h3⟩ := h
  cases op with
  | generateLink a =>
      by_cases ha : a ∈ st.apps
      · simp only [applyLinkOp, if_pos ha]
        refine ⟨?_, ?_, ?_⟩
        · intro l hl
          rcases List.mem_append.mp hl with hl | hl
          · obtain ⟨x, hx, rfl⟩ := List.mem_map.mp hl
            have hx1 := h1 x hx
            by_cases hc : x.app_id = a ∧ x.status ∈ expirableStatuses
            · simp [expireActive, hc]
            · rw [expireActive, if_neg hc]
              exact hx1
          · simp only [List.mem_singleton] at hl
            subst hl
            simp
        · intro b
          simp only [activeLinkCount, List.filter_append]
          by_cases hb : b = a
          · subst hb
            rw [filter_expire_self b st.links h1]
            simp [isActiveFor, activeStatuses]
          · rw [filter_expire_other hb]
            have hnew : List.filter (isActiveFor b) [LinkRec.mk a "generated"] = [] := by
              simp [isActiveFor, Ne.symm hb]
            rw [hnew]
            simpa [activeLinkCount] using h2 b
        · intro l hl
          rcases List.mem_append.mp hl with hl | hl
          · obtain ⟨x, hx, rfl⟩ := List.mem_map.mp hl
            rw [expireActive_app_id]
            exact h3 x hx
          · simp only [List.mem_singleton] at hl
            subst hl
            exact ha
      · simp only [applyLinkOp, if_neg ha]
        exact ⟨h1, h2, h3⟩
  | autoAdvance ok =>
      refine ⟨?_, ?_, ?_⟩
      · intro l hl
        rcases List.mem_append.mp hl with hl | hl
        · exact h1 l hl
        · simp only [List.mem_singleton] at hl
          subst hl
          cases ok <;> simp
      · intro b
        simp only [applyLinkOp, activeLinkCount, List.filter_append]
        by_cases hb : b = freshAppId st
        · have hold : List.filter (isActiveFor b) st.links = [] := by
            rw [List.filter_eq_nil_iff]
            intro l hl
            have := h3 l hl
            have hfresh := freshAppId_not_mem st
            simp only [isActiveFor, Bool.and_eq_true, beq_iff_eq]
            rintro ⟨rfl, -⟩
            exact hfresh (hb ▸ this)
          rw [hold]
          simpa using le_trans (List.length_filter_le _ _) (by simp)
        · have hnew : List.filter (isActiveFor b)
              [LinkRec.mk (freshAppId st) (if ok then "sent" else "generated")] = [] := by
            simp [isActiveFor, Ne.symm hb]
          rw [hnew]
          simpa [activeLinkCount] using h2 b
      · intro l hl
        rcases List.mem_append.mp hl with hl | hl
        · exact List.mem_cons_of_mem _ (h3 l hl)
        · simp only [List.mem_singleton] at hl
          subst hl
          exact List.mem_cons_self _ _

theorem inv_initState : Inv initState := by
  refine ⟨?_, ?_, ?_⟩ <;> intro l <;> simp [initState, activeLinkCount]

theorem inv_runLinkOps (ops : List LinkOp) : Inv (runLinkOps ops) := by
  suffices h : ∀ st, Inv st → Inv (ops.foldl (fun st op => applyLinkOp op st) st) from
    h initState inv_initState
  induction ops with
  | nil => exact fun st h => h
  | cons op ops ih => exact fun st h => ih _ (inv_applyLinkOp op st h)

/-- C3: in every store reachable from the empty store under the two
link-creating operations, each application has at most one link in a
non-terminal status; and dashboard link issuance sets every prior link
of the same application whose status is in {generated, sent, opened} to
`expired` (positionally, row `i` keeps its `app_id` and gets status
`expired`). -/
theorem single_active_link_invariant :
    (∀ (ops : List LinkOp) (a : Nat), activeLinkCount (runLinkOps ops) a ≤ 1) ∧
    (∀ (st : DashState) (a : Nat), a ∈ st.apps →
      ∀ (i : Nat) (l : LinkRec), st.links[i]? = some l →
        l.app_id = a → l.status ∈ expirableStatuses →
        (applyLinkOp (LinkOp.generateLink a) st).links[i]?
          = some (LinkRec.mk l.app_id "expired")) := by
  constructor
  · intro ops a
    exact (inv_runLinkOps ops).2.1 a
  · intro st a ha i l hi happ hstat
    have hlen : i < st.links.length := by
      by_contra hge
      rw [List.getElem?_eq_none (by omega)] at hi
      cases hi
    simp only [applyLinkOp, if_pos ha]
    rw [List.getElem?_append_left (by simpa using hlen), List.getElem?_map, hi]
    simp [expireActive, happ, hstat]

/-- Witness for C3: a two-operation run keeps the invariant, and
generating a new link for an application holding a sent link expires
that link in place. -/
theorem single_active_link_invariant_witness :
    activeLinkCount (runLinkOps [LinkOp.autoAdvance true, LinkOp.generateLink 1]) 1 ≤ 1 ∧
    ((1 : Nat) ∈ dashOneSent.apps ∧
     dashOneSent.links[0]? = some (LinkRec.mk 1 "sent") ∧
     (LinkRec.mk 1 "sent").status ∈ expirableStatuses ∧
     (applyLinkOp (LinkOp.generateLink 1) dashOneSent).links[0]?
       = some (LinkRec.mk 1 "expired")) :=
  ⟨single_active_link_invariant.1 [LinkOp.autoAdvance true, LinkOp.generateLink 1] 1,
   by decide, rfl, by decide,
   single_active_link_invariant.2 dashOneSent 1 (by decide) 0 (LinkRec.mk 1 "sent")
     rfl rfl (by decide)⟩

end LinkOps

theorem lastN_length_le {α : Type} (n : Nat) (xs : List α) :
    (lastN n xs).length ≤ n := by
  simp only [lastN, List.length_drop]
  omega

theorem lastN_append_one {α : Type} (n : Nat) (xs : List α) (a : α) :
    lastN n xs ++ [a] = lastN (n + 1) (xs ++ [a]) := by
  simp only [lastN, List.length_append, List.length_singleton]
  have h : xs.length + 1 - (n + 1) = xs.length - n := by omega
  rw [h, List.drop_append_of_le_length (by omega)]

theorem lastN_lastN {α : Type} (m n : Nat) (ys : List α) (h : m ≤ n) :
    lastN m (lastN n ys) = lastN m ys := by
  simp only [lastN, List.drop_drop, List.length_drop]
  congr 1
  omega

theorem trim_eq_lastN {α : Type} (s : List α) :
    (if s.length > 100 then s.drop (s.length - 100) else s) = lastN 100 s := by
  by_cases h : s.length > 100
  · rw [if_pos h]
    rfl
  · rw [if_neg h]
    have h0 : s.length - 100 = 0 := by omega
    simp only [lastN, h0, List.drop_zero]

theorem trackStep_inv (h : List Snapshot) (t : Tracking) (r : Snapshot)
    (ht : TrackInv h t) : TrackInv (h ++ [r]) (trackStep t r) := by
  obtain ⟨h1, h2, h3, _⟩ := ht
  have hsnaps : t.snapshots ++ [r] = lastN 101 (h ++ [r]) := by
    rw [h3]
    exact lastN_append_one 100 h r
  refine ⟨?_, ?_, ?_, Or.inr ⟨?_, ?_⟩⟩
  · simp [trackStep, h1]
  · simp only [trackStep, h2, List.filter_append, List.length_append]
    cases hr : r.face_present <;> simp [hr]
  · show (if (t.snapshots ++ [r]).length > 100
        then (t.snapshots ++ [r]).drop ((t.snapshots ++ [r]).length - 100)
        else t.snapshots ++ [r]) = lastN 100 (h ++ [r])
    rw [trim_eq_lastN, hsnaps, lastN_lastN 100 101 _ (by omega)]
  · show round3 ((((t.snapshots ++ [r]).map (fun s => s.attention_score)).sum)
        / ((t.total_snapshots + 1 : Nat) : ℚ)) = _
    rw [hsnaps, h1]
    simp
  · show round1 ((((t.face_present_count
        + if r.face_present then 1 else 0 : Nat)) : ℚ)
          / ((t.total_snapshots + 1 : Nat) : ℚ) * 100) = _
    rw [h1, h2]
    simp only [List.filter_append, List.length_append]
    cases hr : r.face_present <;> simp [hr]

theorem runTelemetry_inv (token : String) (reqs : List Snapshot) :
    ∀ (h : List Snapshot) (st : Store1), st.link.token = token →
      TrackInv h (st.link.face_tracking.getD emptyTracking) →
      ∃ st1 : Store1, runTelemetry token reqs st = some st1 ∧
        st1.link.token = token ∧
        TrackInv (h ++ reqs) (st1.link.face_tracking.getD emptyTracking) ∧
        (reqs ≠ [] → st1.app.interview_face_tracking_json =
          some ((st1.link.face_tracking.getD emptyTracking).avg_attention_score,
                (st1.link.face_tracking.getD emptyTracking).face_present_percentage,
                (st1.link.face_tracking.getD emptyTracking).total_snapshots)) ∧
        (reqs = [] → st1 = st) := by
  induction reqs with
  | nil =>
      intro h st htok hinv
      exact ⟨st, rfl, htok, by simpa using hinv, by simp, fun _ => rfl⟩
  | cons r rs ih =>
      intro h st htok hinv
      subst htok
      have hsub : submit_face_tracking st.link.token r st
          = some (Store1.mk
              { st.app with
                interview_face_tracking_json :=
                  some ((trackStep (st.link.face_tracking.getD emptyTracking) r).avg_attention_score,
                    (trackStep (st.link.face_tracking.getD emptyTracking) r).face_present_percentage,
                    (trackStep (st.link.face_tracking.getD emptyTracking) r).total_snapshots) }
              { st.link with
                face_tracking := some (trackStep (st.link.face_tracking.getD emptyTracking) r) }
              st.events,
            (trackStep (st.link.face_tracking.getD emptyTracking) r).total_snapshots) := by
        simp [submit_face_tracking]
      obtain ⟨st1, hrun, htok1, hinv1, hmirror, hnil⟩ :=
        ih (h ++ [r])
          (Store1.mk
            { st.app with
              interview_face_tracking_json :=
                some ((trackStep (st.link.face_tracking.getD emptyTracking) r).avg_attention_score,
                  (trackStep (st.link.face_tracking.getD emptyTracking) r).face_present_percentage,
                  (trackStep (st.link.face_tracking.getD emptyTracking) r).total_snapshots) }
            { st.link with
              face_tracking := some (trackStep (st.link.face_tracking.getD emptyTracking) r) }
            st.events)
          rfl
          (by simpa using trackStep_inv h _ r hinv)
      refine ⟨st1, ?_, htok1, by rw [List.append_cons]; exact hinv1, fun _ => ?_,
        fun hc => by cases hc⟩
      · show List.foldlM _ st (r :: rs) = some st1
        rw [List.foldlM_cons, hsub]
        simpa [runTelemetry] using hrun
      · by_cases hrs : rs = []
        · subst hrs
          rw [hnil rfl]
          rfl
        · exact hmirror hrs

/-- C7 amended: after each telemetry sequence the stored buffer holds at
most the last 100 snapshots; `total_snapshots` and `face_present_count`
count all submissions; `face_present_percentage =
round(count/total·100, 1)` over all submissions; but
`avg_attention_score = round(S/total, 3)` where `S` sums only the
snapshots buffered at computation time — the last `min(total, 101)`
submissions — so it equals the (rounded) arithmetic mean of all
submissions only while `total ≤ 101`.  The aggregates are mirrored onto
the application. -/
theorem telemetry_aggregates (token : String) (reqs : List Snapshot) (st : Store1)
    (htok : st.link.token = token) (hinit : st.link.face_tracking = none)
    (hne : reqs ≠ []) :
    ∃ st1 : Store1, runTelemetry token reqs st = some st1 ∧
      (st1.link.face_tracking.getD emptyTracking).snapshots.length ≤ 100 ∧
      (st1.link.face_tracking.getD emptyTracking).snapshots = lastN 100 reqs ∧
      (st1.link.face_tracking.getD emptyTracking).total_snapshots = reqs.length ∧
      (st1.link.face_tracking.getD emptyTracking).face_present_count
        = (reqs.filter (fun s => s.face_present)).length ∧
      (st1.link.face_tracking.getD emptyTracking).avg_attention_score
        = round3 ((((lastN 101 reqs).map (fun s => s.attention_score)).sum)
            / (reqs.length : ℚ)) ∧
      (st1.link.face_tracking.getD emptyTracking).face_present_percentage
        = round1 (((reqs.filter (fun s => s.face_present)).length : ℚ)
            / (reqs.length : ℚ) * 100) ∧
      st1.app.interview_face_tracking_json =
        some ((st1.link.face_tracking.getD emptyTracking).avg_attention_score,
              (st1.link.face_tracking.getD emptyTracking).face_present_percentage,
              (st1.link.face_tracking.getD emptyTracking).total_snapshots) := by
  have hinv0 : TrackInv [] (st.link.face_tracking.getD emptyTracking) := by
    rw [hinit]
    refine ⟨rfl, rfl, rfl, Or.inl rfl⟩
  obtain ⟨st1, hrun, _, hinv1, hmirror, _⟩ := runTelemetry_inv token reqs [] st htok hinv0
  simp only [List.nil_append] at hinv1
  obtain ⟨h1, h2, h3, h4⟩ := hinv1
  rcases h4 with h4 | ⟨havg, hfpp⟩
  · exact absurd h4 hne
  · exact ⟨st1, hrun, by rw [h3]; exact lastN_length_le 100 reqs, h3, h1, h2,
      havg, hfpp, hmirror hne⟩

/-- Witness for C7: one submission at attention 1/2 yields buffer [that
snapshot], total 1, average 0.5, presence 100%, mirrored. -/
theorem telemetry_aggregates_witness :
    (storeTelemetry.link.token = "tok" ∧
     storeTelemetry.link.face_tracking = none ∧ telemetryOne ≠ []) ∧
    (∃ st1 : Store1, runTelemetry "tok" telemetryOne storeTelemetry = some st1 ∧
      (st1.link.face_tracking.getD emptyTracking).snapshots.length ≤ 100 ∧
      (st1.link.face_tracking.getD emptyTracking).snapshots = lastN 100 telemetryOne ∧
      (st1.link.face_tracking.getD emptyTracking).total_snapshots = telemetryOne.length ∧
      (st1.link.face_tracking.getD emptyTracking).face_present_count
        = (telemetryOne.filter (fun s => s.face_present)).length ∧
      (st1.link.face_tracking.getD emptyTracking).avg_attention_score
        = round3 ((((lastN 101 telemetryOne).map (fun s => s.attention_score)).sum)
            / (telemetryOne.length : ℚ)) ∧
      (st1.link.face_tracking.getD emptyTracking).face_present_percentage
        = round1 (((telemetryOne.filter (fun s => s.face_present)).length : ℚ)
            / (telemetryOne.length : ℚ) * 100) ∧
      st1.app.interview_face_tracking_json =
        some ((st1.link.face_tracking.getD emptyTracking).avg_attention_score,
              (st1.link.face_tracking.getD emptyTracking).face_present_percentage,
              (st1.link.face_tracking.getD emptyTracking).total_snapshots)) :=
  ⟨⟨rfl, rfl, by decide⟩,
   telemetry_aggregates "tok" telemetryOne storeTelemetry rfl rfl (by decide)⟩

set_option maxRecDepth 40000 in
/-- C7 counterexample: after 102 submissions (attention 1, then 101
zeros) the stored `avg_attention_score` is 0, while the arithmetic mean
of all submissions is 1/102 (1/100 after the code's 3-decimal rounding):
the first snapshot has been trimmed from the buffer but `total` still
counts it, so the stored average is not the mean of all submissions. -/
theorem telemetry_avg_not_mean :
    (runTelemetry "tok" telemetryRun storeTelemetry).map
        (fun s => (s.link.face_tracking.getD emptyTracking).avg_attention_score)
      = some 0 ∧
    ((telemetryRun.map (fun s => s.attention_score)).sum
        / (telemetryRun.length : ℚ)) = 1/102 ∧
    round3 ((telemetryRun.map (fun s => s.attention_score)).sum
        / (telemetryRun.length : ℚ)) = 1/100 ∧
    (0 : ℚ) ≠ 1/102 ∧ (0 : ℚ) ≠ 1/100 := by
  with_unfolding_all decide

end HireOps
